import Mathlib

/-!
Verification development for the LTDC (stm32_ltdc.c) and ILI9341 (ili9341.c)
drivers.  The C sources are shallowly embedded: 32-bit registers are `Nat`
values masked explicitly, assertion-checked operations return `Option`
(`none` models a failed `chDbgCheck`/`chDbgAssert`, which halts), and
side-effecting operations return the sequence of hardware accesses they
perform.
-/

namespace LtdcSpec

/-! ### Pixel formats (stm32_ltdc.h enum ids, per spec: ids 0..7) -/

/-- Pixel format id of ARGB-8888. -/
def LTDC_FMT_ARGB8888 : Nat := 0

/-- Pixel format id of RGB-888. -/
def LTDC_FMT_RGB888 : Nat := 1

/-- Pixel format id of RGB-565. -/
def LTDC_FMT_RGB565 : Nat := 2

/-- Pixel format id of ARGB-1555. -/
def LTDC_FMT_ARGB1555 : Nat := 3

/-- Pixel format id of ARGB-4444. -/
def LTDC_FMT_ARGB4444 : Nat := 4

/-- Pixel format id of L-8. -/
def LTDC_FMT_L8 : Nat := 5

/-- Pixel format id of AL-44. -/
def LTDC_FMT_AL44 : Nat := 6

/-- Pixel format id of AL-88. -/
def LTDC_FMT_AL88 : Nat := 7

/-- Modelled from the spec: `LTDC_MIN_PIXFMT_ID` is declared in stm32_ltdc.h,
which is missing from the sources; the spec gives the pixel-format id range
as 0..7. -/
def LTDC_MIN_PIXFMT_ID : Nat := 0

/-- Modelled from the spec: `LTDC_MAX_PIXFMT_ID` is declared in stm32_ltdc.h,
which is missing from the sources; the spec gives the pixel-format id range
as 0..7, and the `ltdc_bpp` table in stm32_ltdc.c has
`LTDC_MAX_PIXFMT_ID + 1 = 8` entries. -/
def LTDC_MAX_PIXFMT_ID : Nat := 7

/-- Modelled from the spec: max palette length (256). -/
def LTDC_MAX_PALETTE_LENGTH : Nat := 256

/-- Bits-per-pixel lookup table `ltdc_bpp` (stm32_ltdc.c lines 92-101),
indexed by pixel format id. -/
def ltdc_bpp : List Nat := [32, 24, 16, 16, 16, 8, 8, 16]

/-- `ltdcBitsPerPixel` (stm32_ltdc.c lines 3759-3765): asserts
`fmt < LTDC_MAX_PIXFMT_ID` (a strict comparison in the source), then looks the
format up in the `ltdc_bpp` table.  `none` models the assertion failing. -/
def ltdcBitsPerPixel (fmt : Nat) : Option Nat :=
  if fmt < LTDC_MAX_PIXFMT_ID then some (ltdc_bpp.getD fmt 0) else none

/-- Modelled from the spec: `ltdcBytesPerPixel` is declared in stm32_ltdc.h,
which is missing from the sources.  Per the spec, line size in bytes is
bpp(format) x width with the bpp table giving bits, so bytes per pixel is
the table value divided by 8 (all eight table values are multiples of 8). -/
def ltdcBytesPerPixel (fmt : Nat) : Nat := ltdc_bpp.getD fmt 0 / 8

/-! ### Software color conversions (stm32_ltdc.c lines 3781-3885) -/

/-- `ltdcFromARGB8888` (stm32_ltdc.c lines 3781-3822): converts an ARGB-8888
color to the given pixel format by lane shifts.  `none` models the
`chDbgPanic` on an invalid format. -/
def ltdcFromARGB8888 (c fmt : Nat) : Option Nat :=
  if fmt = LTDC_FMT_ARGB8888 then
    some c
  else if fmt = LTDC_FMT_RGB888 then
    some (c &&& 0x00FFFFFF)
  else if fmt = LTDC_FMT_RGB565 then
    some (((c &&& 0x000000F8) >>> (8 - 5)) |||
          ((c &&& 0x0000FC00) >>> (16 - 11)) |||
          ((c &&& 0x00F80000) >>> (24 - 16)))
  else if fmt = LTDC_FMT_ARGB1555 then
    some (((c &&& 0x000000F8) >>> (8 - 5)) |||
          ((c &&& 0x0000F800) >>> (16 - 10)) |||
          ((c &&& 0x00F80000) >>> (24 - 15)) |||
          ((c &&& 0x80000000) >>> (32 - 16)))
  else if fmt = LTDC_FMT_ARGB4444 then
    some (((c &&& 0x000000F0) >>> (8 - 4)) |||
          ((c &&& 0x0000F000) >>> (16 - 8)) |||
          ((c &&& 0x00F00000) >>> (24 - 12)) |||
          ((c &&& 0xF0000000) >>> (32 - 16)))
  else if fmt = LTDC_FMT_L8 then
    some (c &&& 0x000000FF)
  else if fmt = LTDC_FMT_AL44 then
    some (((c &&& 0x000000F0) >>> (8 - 4)) |||
          ((c &&& 0xF0000000) >>> (32 - 8)))
  else if fmt = LTDC_FMT_AL88 then
    some (((c &&& 0x000000FF) >>> (8 - 8)) |||
          ((c &&& 0xFF000000) >>> (32 - 16)))
  else
    none

/-- `ltdcToARGB8888` (stm32_ltdc.c lines 3836-3885): converts a raw color of
the given pixel format to ARGB-8888, replicating the high bits of each channel
into the missing low bits.  `none` models the assertion on an invalid
format. -/
def ltdcToARGB8888 (c fmt : Nat) : Option Nat :=
  if fmt = LTDC_FMT_ARGB8888 then
    some c
  else if fmt = LTDC_FMT_RGB888 then
    some ((c &&& 0x00FFFFFF) ||| 0xFF000000)
  else if fmt = LTDC_FMT_RGB565 then
    some (let o0 : Nat := 0xFF000000
          let o1 := if c &&& 0x001F ≠ 0 then o0 ||| (((c &&& 0x001F) <<< (8 - 5)) ||| 0x00000007) else o0
          let o2 := if c &&& 0x07E0 ≠ 0 then o1 ||| (((c &&& 0x07E0) <<< (16 - 11)) ||| 0x00000300) else o1
          if c &&& 0xF800 ≠ 0 then o2 ||| (((c &&& 0xF800) <<< (24 - 16)) ||| 0x00070000) else o2)
  else if fmt = LTDC_FMT_ARGB1555 then
    some (let o0 : Nat := 0x00000000
          let o1 := if c &&& 0x001F ≠ 0 then o0 ||| (((c &&& 0x001F) <<< (8 - 5)) ||| 0x00000007) else o0
          let o2 := if c &&& 0x03E0 ≠ 0 then o1 ||| (((c &&& 0x03E0) <<< (16 - 10)) ||| 0x00000700) else o1
          let o3 := if c &&& 0x7C00 ≠ 0 then o2 ||| (((c &&& 0x7C00) <<< (24 - 15)) ||| 0x00070000) else o2
          if c &&& 0x8000 ≠ 0 then o3 ||| 0xFF000000 else o3)
  else if fmt = LTDC_FMT_ARGB4444 then
    some (let o0 : Nat := 0x00000000
          let o1 := if c &&& 0x000F ≠ 0 then o0 ||| (((c &&& 0x000F) <<< (8 - 4)) ||| 0x0000000F) else o0
          let o2 := if c &&& 0x00F0 ≠ 0 then o1 ||| (((c &&& 0x00F0) <<< (16 - 8)) ||| 0x00000F00) else o1
          let o3 := if c &&& 0x0F00 ≠ 0 then o2 ||| (((c &&& 0x0F00) <<< (24 - 12)) ||| 0x000F0000) else o2
          if c &&& 0xF000 ≠ 0 then o3 ||| (((c &&& 0xF000) <<< (32 - 16)) ||| 0x0F000000) else o3)
  else if fmt = LTDC_FMT_L8 then
    some ((c &&& 0xFF) ||| 0xFF000000)
  else if fmt = LTDC_FMT_AL44 then
    some (let o0 : Nat := 0x00000000
          let o1 := if c &&& 0x0F ≠ 0 then o0 ||| (((c &&& 0x0F) <<< (8 - 4)) ||| 0x0000000F) else o0
          if c &&& 0xF0 ≠ 0 then o1 ||| (((c &&& 0xF0) <<< (32 - 8)) ||| 0x0F000000) else o1)
  else if fmt = LTDC_FMT_AL88 then
    some (((c &&& 0x00FF) <<< (8 - 8)) ||| ((c &&& 0xFF00) <<< (32 - 16)))
  else
    none

end LtdcSpec

namespace LtdcSpec

/-! ### Layer register-block model

Register bitfield masks are declared in headers missing from the sources
(stm32f4xx.h / stm32_ltdc.h); per spec section 6 the bitfield layouts are
those of the target silicon, and the framebuffer-length register packs the
pitch in the high 16 bits and the length-bytes field in the low 13 bits. -/

/-- Modelled from the spec: layer-enable bit of the layer control register. -/
def LTDC_LxCR_LEN : Nat := 0x00000001

/-- Modelled from the spec: color-keying-enable bit of the layer control
register. -/
def LTDC_LxCR_COLKEN : Nat := 0x00000002

/-- Modelled from the spec: CLUT-enable bit of the layer control register. -/
def LTDC_LxCR_CLUTEN : Nat := 0x00000010

/-- Modelled from the spec: pixel-format field mask of the LxPFCR register
(eight formats, ids 0..7). -/
def LTDC_LxPFCR_PF : Nat := 0x00000007

/-- Modelled from the spec: window horizontal start field of LxWHPCR. -/
def LTDC_LxWHPCR_WHSTPOS : Nat := 0x00000FFF

/-- Modelled from the spec: window horizontal stop field of LxWHPCR. -/
def LTDC_LxWHPCR_WHSPPOS : Nat := 0x0FFF0000

/-- Modelled from the spec: window vertical start field of LxWVPCR. -/
def LTDC_LxWVPCR_WVSTPOS : Nat := 0x000007FF

/-- Modelled from the spec: window vertical stop field of LxWVPCR. -/
def LTDC_LxWVPCR_WVSPPOS : Nat := 0x07FF0000

/-- Modelled from the spec: framebuffer address field of LxCFBAR. -/
def LTDC_LxCFBAR_CFBADD : Nat := 0xFFFFFFFF

/-- Modelled from the spec: pitch field of LxCFBLR (high 16 bits). -/
def LTDC_LxCFBLR_CFBP : Nat := 0xFFFF0000

/-- Modelled from the spec: line-length field of LxCFBLR (low 13 bits). -/
def LTDC_LxCFBLR_CFBLL : Nat := 0x00001FFF

/-- Modelled from the spec: line-count field of LxCFBLNR. -/
def LTDC_LxCFBLNR_CFBLNBR : Nat := 0x000007FF

/-- Modelled from the spec: minimum frame line size in bytes
(`LTDC_MIN_FRAME_WIDTH_BYTES`, declared in the missing stm32_ltdc.h). -/
def LTDC_MIN_FRAME_WIDTH_BYTES : Nat := 1

/-- Modelled from the spec: maximum frame line size in bytes
(`LTDC_MAX_FRAME_WIDTH_BYTES`, declared in the missing stm32_ltdc.h): the
largest line length whose stored value (length + 3) fits the 13-bit
line-length field. -/
def LTDC_MAX_FRAME_WIDTH_BYTES : Nat := 0x1FFF - 3

/-- Modelled from the spec: minimum frame height in lines
(`LTDC_MIN_FRAME_HEIGHT_LINES`, declared in the missing stm32_ltdc.h). -/
def LTDC_MIN_FRAME_HEIGHT_LINES : Nat := 1

/-- Modelled from the spec: maximum frame height in lines
(`LTDC_MAX_FRAME_HEIGHT_LINES`, declared in the missing stm32_ltdc.h): the
largest count that fits the 11-bit line-count field. -/
def LTDC_MAX_FRAME_HEIGHT_LINES : Nat := 0x7FF

/-- Window descriptor `ltdc_window_t` (four uint16 coordinates). -/
structure ltdc_window_t where
  hstart : Nat
  hstop : Nat
  vstart : Nat
  vstop : Nat
deriving DecidableEq, Repr

/-- Frame descriptor `ltdc_frame_t` (buffer address, pitch in bytes, width in
pixels, height in lines, pixel format). -/
structure ltdc_frame_t where
  bufferp : Nat
  pitch : Nat
  width : Nat
  height : Nat
  fmt : Nat
deriving DecidableEq, Repr

/-- Shadow registers of one hardware layer block (LTDC_Layer1/LTDC_Layer2). -/
structure LtdcLayerRegs where
  CR : Nat
  PFCR : Nat
  CFBAR : Nat
  CFBLR : Nat
  CFBLNR : Nat
  WHPCR : Nat
  WVPCR : Nat
deriving DecidableEq, Repr

/-- A layer block with all registers zero (reset state). -/
def layerReset : LtdcLayerRegs :=
  { CR := 0, PFCR := 0, CFBAR := 0, CFBLR := 0, CFBLNR := 0, WHPCR := 0,
    WVPCR := 0 }

/-- Fields of `LTDCConfig` used by the embedded operations (timings and
screen geometry). -/
structure LTDCConfig where
  hsync_width : Nat
  vsync_height : Nat
  hbp_width : Nat
  vbp_height : Nat
  screen_width : Nat
  screen_height : Nat
  hfp_width : Nat
  vfp_height : Nat
deriving DecidableEq, Repr

/-- Active-window computation of `ltdcStart` (stm32_ltdc.c lines 371-431):
the horizontal accumulator starts at `hsync_width - 1`, adds the back porch
(cached `hstart = hacc + 1`), then adds the screen width (cached
`hstop = hacc`); vertically alike. -/
def ltdcStartActiveWindow (cfg : LTDCConfig) : ltdc_window_t :=
  let hacc0 := cfg.hsync_width - 1
  let vacc0 := cfg.vsync_height - 1
  let hacc1 := hacc0 + cfg.hbp_width
  let vacc1 := vacc0 + cfg.vbp_height
  let hacc2 := hacc1 + cfg.screen_width
  let vacc2 := vacc1 + cfg.screen_height
  { hstart := hacc1 + 1, hstop := hacc2, vstart := vacc1 + 1, vstop := vacc2 }

/-- Encoding of the LxWHPCR register written by the window setters:
horizontal start in the low field, horizontal stop shifted into the high
field. -/
def ltdc_whpcr (start stop : Nat) : Nat :=
  ((start <<< 0) &&& LTDC_LxWHPCR_WHSTPOS) |||
  ((stop <<< 16) &&& LTDC_LxWHPCR_WHSPPOS)

/-- Encoding of the LxWVPCR register written by the window setters. -/
def ltdc_wvpcr (start stop : Nat) : Nat :=
  ((start <<< 0) &&& LTDC_LxWVPCR_WVSTPOS) |||
  ((stop <<< 16) &&& LTDC_LxWVPCR_WVSPPOS)

/-- `ltdcBgSetWindowI` (stm32_ltdc.c lines 2114-2151): checks the relative
stops against the screen, translates relative coordinates to absolute ones by
adding the cached active-window start, asserts absolute start is at or after
the active-window start and absolute stop at or before the active-window stop
on both axes, and writes LxWHPCR/LxWVPCR.  `none` models a failed assertion
(the C source has already written WHPCR when a vertical assertion fails; the
claims never exercise that partial write). -/
def ltdcBgSetWindowI (cfg : LTDCConfig) (aw : ltdc_window_t)
    (l : LtdcLayerRegs) (w : ltdc_window_t) : Option LtdcLayerRegs :=
  if w.hstop < cfg.screen_width ∧ w.vstop < cfg.screen_height then
    let hstart := w.hstart + aw.hstart
    let hstop := w.hstop + aw.hstart
    if aw.hstart ≤ hstart ∧ hstop ≤ aw.hstop then
      let vstart := w.vstart + aw.vstart
      let vstop := w.vstop + aw.vstart
      if aw.vstart ≤ vstart ∧ vstop ≤ aw.vstop then
        some { l with WHPCR := ltdc_whpcr hstart hstop,
                      WVPCR := ltdc_wvpcr vstart vstop }
      else none
    else none
  else none

/-- `ltdcFgSetWindowI` (stm32_ltdc.c lines 3383-3420): identical to the
background variant but targeting the layer 2 block. -/
def ltdcFgSetWindowI (cfg : LTDCConfig) (aw : ltdc_window_t)
    (l : LtdcLayerRegs) (w : ltdc_window_t) : Option LtdcLayerRegs :=
  ltdcBgSetWindowI cfg aw l w

/-- The 480x272 configuration of the spec scenarios: HSW=41, VSW=10, HBP=2,
VBP=2, HFP=2, VFP=2. -/
def cfg480 : LTDCConfig :=
  { hsync_width := 41, vsync_height := 10, hbp_width := 2, vbp_height := 2,
    screen_width := 480, screen_height := 272, hfp_width := 2,
    vfp_height := 2 }

end LtdcSpec

namespace LtdcSpec

/-! ### Layer control-register predicates and palette writes

The C predicates read the layer control register; the embedding takes that
register value as the argument.  The foreground twins (stm32_ltdc.c lines
2568-2575, 2671-2678, 2946-2953) read LTDC_Layer2->CR with the same masks. -/

/-- `ltdcBgIsEnabledI` (stm32_ltdc.c lines 1299-1306): returns
`(CR & ~LTDC_LxCR_LEN) != 0`, masking with the complement of the
layer-enable bit. -/
def ltdcBgIsEnabledI (cr : Nat) : Bool :=
  decide ((cr &&& (0xFFFFFFFF ^^^ LTDC_LxCR_LEN)) ≠ 0)

/-- `ltdcBgIsPaletteEnabledI` (stm32_ltdc.c lines 1402-1409): returns
`(CR & ~LTDC_LxCR_CLUTEN) != 0`. -/
def ltdcBgIsPaletteEnabledI (cr : Nat) : Bool :=
  decide ((cr &&& (0xFFFFFFFF ^^^ LTDC_LxCR_CLUTEN)) ≠ 0)

/-- `ltdcBgIsKeyingEnabledI` (stm32_ltdc.c lines 1677-1684): returns
`(CR & ~LTDC_LxCR_COLKEN) != 0`. -/
def ltdcBgIsKeyingEnabledI (cr : Nat) : Bool :=
  decide ((cr &&& (0xFFFFFFFF ^^^ LTDC_LxCR_COLKEN)) ≠ 0)

/-- `ltdcFgIsEnabledI` (stm32_ltdc.c lines 2568-2575): same wide test on the
layer 2 control register. -/
def ltdcFgIsEnabledI (cr : Nat) : Bool := ltdcBgIsEnabledI cr

/-- `ltdcFgIsPaletteEnabledI` (stm32_ltdc.c lines 2671-2678). -/
def ltdcFgIsPaletteEnabledI (cr : Nat) : Bool := ltdcBgIsPaletteEnabledI cr

/-- `ltdcFgIsKeyingEnabledI` (stm32_ltdc.c lines 2946-2953). -/
def ltdcFgIsKeyingEnabledI (cr : Nat) : Bool := ltdcBgIsKeyingEnabledI cr

/-- `ltdcBgSetPaletteColorI` (stm32_ltdc.c lines 1511-1520): asserts the
layer "disabled" (via the wide `ltdcBgIsEnabledI` test), then writes one
CLUTWR word: slot in the high byte, RGB-888 color in the low 24 bits.
The result is the written word; `none` models the assertion failing. -/
def ltdcBgSetPaletteColorI (cr slot c : Nat) : Option Nat :=
  if ltdcBgIsEnabledI cr then none
  else some ((slot <<< 24) ||| (c &&& 0x00FFFFFF))

/-- `ltdcBgSetPaletteI` (stm32_ltdc.c lines 1552-1568): checks
`length <= LTDC_MAX_PALETTE_LENGTH`, asserts the layer "disabled" (via the
wide `ltdcBgIsEnabledI` test), then writes one CLUTWR word per color, indexed
0..length-1, each with the slot index in the high byte and the RGB-888 color
in the low 24 bits.  The result is the sequence of CLUTWR writes. -/
def ltdcBgSetPaletteI (cr : Nat) (colors : List Nat) : Option (List Nat) :=
  if colors.length ≤ LTDC_MAX_PALETTE_LENGTH ∧ ¬ ltdcBgIsEnabledI cr then
    some ((List.range colors.length).map
      (fun i => (i <<< 24) ||| (colors.getD i 0 &&& 0x00FFFFFF)))
  else none

/-- `ltdcFgSetPaletteI` (stm32_ltdc.c lines 2821-2837): identical, guarded by
`ltdcFgIsEnabledI` on the layer 2 control register. -/
def ltdcFgSetPaletteI (cr : Nat) (colors : List Nat) : Option (List Nat) :=
  ltdcBgSetPaletteI cr colors

/-! ### Pixel format and frame descriptor operations -/

/-- `ltdcBgSetPixelFormatI` (stm32_ltdc.c lines 1636-1648): asserts the
format id within `LTDC_MIN_PIXFMT_ID..LTDC_MAX_PIXFMT_ID`, then writes the
pixel-format field of LxPFCR. -/
def ltdcBgSetPixelFormatI (l : LtdcLayerRegs) (fmt : Nat) :
    Option LtdcLayerRegs :=
  if LTDC_MIN_PIXFMT_ID ≤ fmt ∧ fmt ≤ LTDC_MAX_PIXFMT_ID then
    some { l with PFCR := (l.PFCR &&& (0xFFFFFFFF ^^^ LTDC_LxPFCR_PF)) |||
                          (fmt &&& LTDC_LxPFCR_PF) }
  else none

/-- `ltdcBgGetPixelFormatI` (stm32_ltdc.c lines 1599-1606): reads the
pixel-format field of LxPFCR. -/
def ltdcBgGetPixelFormatI (l : LtdcLayerRegs) : Nat :=
  l.PFCR &&& LTDC_LxPFCR_PF

/-- `ltdcBgSetFrameI` (stm32_ltdc.c lines 2253-2284): re-programs the pixel
format, computes `linesize = bytes-per-pixel(fmt) * width`, asserts width and
height against the screen, linesize and height against the hardware min/max
bounds and pitch at least linesize, then writes LxCFBAR (address), LxCFBLR
(pitch packed with linesize+3) and LxCFBLNR (height). -/
def ltdcBgSetFrameI (cfg : LTDCConfig) (l : LtdcLayerRegs)
    (f : ltdc_frame_t) : Option LtdcLayerRegs :=
  match ltdcBgSetPixelFormatI l f.fmt with
  | none => none
  | some l1 =>
    let linesize := ltdcBytesPerPixel f.fmt * f.width
    if f.width ≤ cfg.screen_width ∧ f.height ≤ cfg.screen_height ∧
       LTDC_MIN_FRAME_WIDTH_BYTES ≤ linesize ∧
       linesize ≤ LTDC_MAX_FRAME_WIDTH_BYTES ∧
       LTDC_MIN_FRAME_HEIGHT_LINES ≤ f.height ∧
       f.height ≤ LTDC_MAX_FRAME_HEIGHT_LINES ∧
       linesize ≤ f.pitch then
      some { l1 with
        CFBAR := f.bufferp &&& LTDC_LxCFBAR_CFBADD,
        CFBLR := ((f.pitch <<< 16) &&& LTDC_LxCFBLR_CFBP) |||
                 ((linesize + 3) &&& LTDC_LxCFBLR_CFBLL),
        CFBLNR := f.height &&& LTDC_LxCFBLNR_CFBLNBR }
    else none

/-- `ltdcBgGetFrameI` (stm32_ltdc.c lines 2213-2224): fills the address,
pitch, width and height fields of the caller's descriptor from the layer
registers, inverting the length encoding (`(CFBLL - 3) / bytes-per-pixel`).
The C function never assigns `framep->fmt`, so that field keeps whatever the
caller's struct held. -/
def ltdcBgGetFrameI (l : LtdcLayerRegs) (framep : ltdc_frame_t) :
    ltdc_frame_t :=
  { framep with
    bufferp := l.CFBAR &&& LTDC_LxCFBAR_CFBADD,
    pitch := (l.CFBLR &&& LTDC_LxCFBLR_CFBP) >>> 16,
    width := ((l.CFBLR &&& LTDC_LxCFBLR_CFBLL) - 3) /
             ltdcBytesPerPixel (ltdcBgGetPixelFormatI l),
    height := l.CFBLNR &&& LTDC_LxCFBLNR_CFBLNBR }

/-- `ltdcFgSetPixelFormatI` (stm32_ltdc.c lines 2905-2917): identical to the
background variant over the layer 2 block. -/
def ltdcFgSetPixelFormatI (l : LtdcLayerRegs) (fmt : Nat) :
    Option LtdcLayerRegs :=
  ltdcBgSetPixelFormatI l fmt

/-- `ltdcFgGetPixelFormatI` (stm32_ltdc.c lines 2868-2875). -/
def ltdcFgGetPixelFormatI (l : LtdcLayerRegs) : Nat :=
  ltdcBgGetPixelFormatI l

/-- `ltdcFgSetFrameI` (stm32_ltdc.c lines 3522-3553): identical validation
and writes over the layer 2 block. -/
def ltdcFgSetFrameI (cfg : LTDCConfig) (l : LtdcLayerRegs)
    (f : ltdc_frame_t) : Option LtdcLayerRegs :=
  ltdcBgSetFrameI cfg l f

/-- `ltdcFgGetFrameI` (stm32_ltdc.c lines 3482-3493). -/
def ltdcFgGetFrameI (l : LtdcLayerRegs) (framep : ltdc_frame_t) :
    ltdc_frame_t :=
  ltdcBgGetFrameI l framep

/-! ### Event interrupt handler (stm32_ltdc.c lines 177-215) -/

/-- LTDC driver states. -/
inductive ltdc_state_t where
  | UNINIT
  | STOP
  | READY
  | ACTIVE
deriving DecidableEq, Repr

/-- Modelled from the spec: interrupt-status/enable bit positions of the
target silicon (line, FIFO-underrun, transfer-error, register-reload). -/
def LTDC_ISR_LIF : Nat := 0x00000001

/-- Modelled from the spec: register-reload interrupt flag bit. -/
def LTDC_ISR_RRIF : Nat := 0x00000008

/-- Modelled from the spec: line interrupt enable bit. -/
def LTDC_IER_LIE : Nat := 0x00000001

/-- Modelled from the spec: register-reload interrupt enable bit. -/
def LTDC_IER_RRIE : Nat := 0x00000008

/-- Modelled from the spec: `RDY_OK` is the ChibiOS success wake-up message
(declared in ch.h, missing from the sources). -/
def RDY_OK : Nat := 0

/-- Observable actions of the event interrupt handler, in program order. -/
inductive LtdcEvent where
  /-- The line callback `config->line_isr` is invoked. -/
  | lineCb
  /-- The line interrupt flag is cleared via ICR. -/
  | lineClear
  /-- The reload callback `config->rr_isr` is invoked. -/
  | rrCb
  /-- The parked waiting task is made ready with message `msg`. -/
  | wake (msg : Nat)
  /-- The driver state is set to READY. -/
  | stateReady
  /-- The register-reload interrupt flag is cleared via ICR. -/
  | rrClear
deriving DecidableEq, Repr

/-- Driver and register state read by the event interrupt handler. -/
structure LtdcIsrState where
  /-- Interrupt status register. -/
  isr : Nat
  /-- Interrupt enable register. -/
  ier : Nat
  /-- Driver state. -/
  state : ltdc_state_t
  /-- Whether a task is parked on the wait slot (`ltdcp->thread != NULL`). -/
  thread : Bool
  /-- Whether `config->line_isr` is non-null. -/
  line_isr : Bool
  /-- Whether `config->rr_isr` is non-null. -/
  rr_isr : Bool
deriving DecidableEq, Repr

/-- `LTDC_EV_IRQHandler` (stm32_ltdc.c lines 177-215): handles the line
interrupt (callback then flag clear), then the register-reload interrupt:
invokes the reload callback if non-null, asserts state == ACTIVE, wakes the
parked task (if any) with `RDY_OK`, sets the state to READY, and clears the
flag — in that program order.  Returns the event trace and the new state;
`none` models a failed assertion (which halts, discarding the trace). -/
def LTDC_EV_IRQHandler (s : LtdcIsrState) :
    Option (List LtdcEvent × LtdcIsrState) :=
  let lineStep : Option (List LtdcEvent) :=
    if s.isr &&& LTDC_ISR_LIF ≠ 0 ∧ s.ier &&& LTDC_IER_LIE ≠ 0 then
      if s.line_isr then some [LtdcEvent.lineCb, LtdcEvent.lineClear]
      else none
    else some []
  match lineStep with
  | none => none
  | some tr1 =>
    if s.isr &&& LTDC_ISR_RRIF ≠ 0 ∧ s.ier &&& LTDC_IER_RRIE ≠ 0 then
      let tr2 := if s.rr_isr then [LtdcEvent.rrCb] else []
      if s.state = ltdc_state_t.ACTIVE then
        let tr3 := if s.thread then [LtdcEvent.wake RDY_OK] else []
        some (tr1 ++ tr2 ++ tr3 ++ [LtdcEvent.stateReady, LtdcEvent.rrClear],
              { s with state := ltdc_state_t.READY, thread := false })
      else none
    else some (tr1, s)

end LtdcSpec

namespace LtdcSpec

/-! ### ILI9341 panel driver (ili9341.c) -/

/-- ILI9341 driver states. -/
inductive ili9341_state_t where
  | STOP
  | READY
  | ACTIVE
deriving DecidableEq, Repr

/-- Hardware accesses performed by the transfer operations, in program
order. -/
inductive Ili9341Effect where
  /-- The D/CX pad is driven low (command phase). -/
  | padClear
  /-- The D/CX pad is driven high (data phase). -/
  | padSet
  /-- `spiSend` of the given bytes. -/
  | spiSendE (bytes : List Nat)
  /-- `spiReceive` of the given number of bytes. -/
  | spiReceiveE (n : Nat)
deriving DecidableEq, Repr

/-- ILI9341 driver object: state and the one-byte scratch `value` used by
single-byte transfers. -/
structure ILI9341Driver where
  state : ili9341_state_t
  value : Nat
deriving DecidableEq, Repr

/-- `ili9341WriteCommand` (ili9341.c lines 321-330): asserts state == ACTIVE,
stores the command byte in the scratch slot, drives D/CX low, sends one byte.
`none` models the assertion failing before any pad or SPI access. -/
def ili9341WriteCommand (d : ILI9341Driver) (cmd : Nat) :
    Option (ILI9341Driver × List Ili9341Effect) :=
  if d.state = ili9341_state_t.ACTIVE then
    some ({ d with value := cmd },
          [Ili9341Effect.padClear, Ili9341Effect.spiSendE [cmd]])
  else none

/-- `ili9341WriteByte` (ili9341.c lines 341-350): asserts state == ACTIVE,
stores the data byte, drives D/CX high, sends one byte. -/
def ili9341WriteByte (d : ILI9341Driver) (value : Nat) :
    Option (ILI9341Driver × List Ili9341Effect) :=
  if d.state = ili9341_state_t.ACTIVE then
    some ({ d with value := value },
          [Ili9341Effect.padSet, Ili9341Effect.spiSendE [value]])
  else none

/-- Modelled from the source: the first statement of `ili9341ReadByte`
(ili9341.c lines 362-373) is `chDbgAssert(FALSE, "should not be used")`, so
with checks compiled in the call always halts; the state == ACTIVE assertion
and the D/CX / SPI accesses below it are never reached. -/
def ILI9341_READBYTE_REACHABLE : Bool := false

/-- `ili9341ReadByte` (ili9341.c lines 362-373): asserts FALSE ("should not
be used"), then would assert state == ACTIVE, drive D/CX high and receive one
byte into the scratch slot. -/
def ili9341ReadByte (d : ILI9341Driver) (input : Nat) :
    Option (ILI9341Driver × List Ili9341Effect × Nat) :=
  if ILI9341_READBYTE_REACHABLE then
    if d.state = ili9341_state_t.ACTIVE then
      some ({ d with value := input },
            [Ili9341Effect.padSet, Ili9341Effect.spiReceiveE 1], input)
    else none
  else none

/-- `ili9341WriteChunk` (ili9341.c lines 386-399): requires a non-null chunk,
asserts state == ACTIVE, returns immediately when `length == 0`, otherwise
drives D/CX high and sends `length` bytes.  The driver object is returned
unchanged (the operation never touches it). -/
def ili9341WriteChunk (d : ILI9341Driver) (chunk : List Nat)
    (length : Nat) : Option (ILI9341Driver × List Ili9341Effect) :=
  if d.state = ili9341_state_t.ACTIVE then
    if length = 0 then some (d, [])
    else some (d, [Ili9341Effect.padSet,
                   Ili9341Effect.spiSendE (chunk.take length)])
  else none

/-- `ili9341ReadChunk` (ili9341.c lines 412-425): requires a non-null chunk,
asserts state == ACTIVE, returns immediately when `length == 0`, otherwise
drives D/CX high and receives `length` bytes into the chunk buffer.  Returns
the driver object, the chunk buffer contents after the call, and the
accesses. -/
def ili9341ReadChunk (d : ILI9341Driver) (chunk : List Nat) (length : Nat)
    (input : List Nat) :
    Option (ILI9341Driver × List Nat × List Ili9341Effect) :=
  if d.state = ili9341_state_t.ACTIVE then
    if length = 0 then some (d, chunk, [])
    else some (d, input.take length ++ chunk.drop length,
               [Ili9341Effect.padSet, Ili9341Effect.spiReceiveE length])
  else none

end LtdcSpec

namespace LtdcSpec

/-- C7: for pixel format ids 0..6 the bounds assertion of `ltdcBitsPerPixel`
passes and the table lookup returns 32, 24, 16, 16, 16, 8, 8; for the in-bounds
id 7 (AL-88) the strict assertion `fmt < LTDC_MAX_PIXFMT_ID` fails even though
the table itself holds 16 at index 7, so the claim fails at id 7. -/
theorem ltdcBitsPerPixel_table_and_check :
    ltdcBitsPerPixel LTDC_FMT_ARGB8888 = some 32 ∧
    ltdcBitsPerPixel LTDC_FMT_RGB888 = some 24 ∧
    ltdcBitsPerPixel LTDC_FMT_RGB565 = some 16 ∧
    ltdcBitsPerPixel LTDC_FMT_ARGB1555 = some 16 ∧
    ltdcBitsPerPixel LTDC_FMT_ARGB4444 = some 16 ∧
    ltdcBitsPerPixel LTDC_FMT_L8 = some 8 ∧
    ltdcBitsPerPixel LTDC_FMT_AL44 = some 8 ∧
    ltdcBitsPerPixel LTDC_FMT_AL88 = none ∧
    LTDC_FMT_AL88 ≤ LTDC_MAX_PIXFMT_ID ∧
    ltdc_bpp.getD LTDC_FMT_AL88 0 = 16 := by
  decide

/-- C8: the software conversions satisfy
`ltdcFromARGB8888 0xFF00FF00 RGB565 = 0x07E0` and
`ltdcToARGB8888 0x07E0 RGB565 = 0xFF00FF00` exactly: expansion replicates the
high bits of each channel into the missing low bits, so the saturated green
channel maps back to 0xFF. -/
theorem ltdcARGB8888_rgb565_roundtrip :
    ltdcFromARGB8888 0xFF00FF00 LTDC_FMT_RGB565 = some 0x07E0 ∧
    ltdcToARGB8888 0x07E0 LTDC_FMT_RGB565 = some 0xFF00FF00 := by
  decide

end LtdcSpec

namespace LtdcSpec

/-- C1: the window setter translates the given relative window to absolute
coordinates by adding the cached active-window hstart/vstart, asserts
absolute start at or after the active start and absolute stop at or before
the active stop on both axes, and writes the two window-position registers;
concretely, after start with HSW=41, VSW=10, HBP=2, VBP=2 and 480x272 the
cached active window is (hstart=43, vstart=12, hstop=522, vstop=283), and
setting the background window to (0..479, 0..271) writes absolute 43..522
into WHPCR and 12..283 into WVPCR. -/
theorem ltdcBgSetWindowI_translates (cfg : LTDCConfig) (aw : ltdc_window_t)
    (l : LtdcLayerRegs) (w : ltdc_window_t)
    (h1 : w.hstop < cfg.screen_width)
    (h2 : w.vstop < cfg.screen_height)
    (h3 : w.hstop + aw.hstart ≤ aw.hstop)
    (h4 : w.vstop + aw.vstart ≤ aw.vstop) :
    (ltdcBgSetWindowI cfg aw l w =
      some { l with WHPCR := ltdc_whpcr (w.hstart + aw.hstart) (w.hstop + aw.hstart),
                    WVPCR := ltdc_wvpcr (w.vstart + aw.vstart) (w.vstop + aw.vstart) }) ∧
    ltdcStartActiveWindow cfg480 =
      { hstart := 43, hstop := 522, vstart := 12, vstop := 283 } ∧
    ltdcBgSetWindowI cfg480 { hstart := 43, hstop := 522, vstart := 12, vstop := 283 }
        layerReset { hstart := 0, hstop := 479, vstart := 0, vstop := 271 } =
      some { layerReset with WHPCR := 0x020A002B, WVPCR := 0x011B000C } ∧
    ltdc_whpcr 43 522 = 0x020A002B ∧ ltdc_wvpcr 12 283 = 0x011B000C := by
  refine ⟨?_, by decide, by decide, by decide, by decide⟩
  simp only [ltdcBgSetWindowI, h1, h2, and_true, true_and, if_pos,
    Nat.le_add_left, h3, h4]

/-- Witness for C1 at the spec scenario: background window (0..479, 0..271)
against the cached active window of the 480x272 start. -/
theorem ltdcBgSetWindowI_translates_witness :
    (479 < cfg480.screen_width ∧ 271 < cfg480.screen_height ∧
     479 + 43 ≤ 522 ∧ 271 + 12 ≤ 283) ∧
    ltdcBgSetWindowI cfg480 { hstart := 43, hstop := 522, vstart := 12, vstop := 283 }
        layerReset { hstart := 0, hstop := 479, vstart := 0, vstop := 271 } =
      some { layerReset with
              WHPCR := ltdc_whpcr (0 + 43) (479 + 43),
              WVPCR := ltdc_wvpcr (0 + 12) (271 + 12) } :=
  ⟨by decide,
   (ltdcBgSetWindowI_translates cfg480
      { hstart := 43, hstop := 522, vstart := 12, vstop := 283 } layerReset
      { hstart := 0, hstop := 479, vstart := 0, vstop := 271 }
      (by decide) (by decide) (by decide) (by decide)).1⟩

end LtdcSpec

namespace LtdcSpec

/-! ### Bit-level helper lemmas for the register encodings -/

/-- Bits of the high-halfword mask of the framebuffer-length register. -/
lemma testBit_hi16_mask (i : Nat) :
    (LTDC_LxCFBLR_CFBP : Nat).testBit i =
      (decide (16 ≤ i) && decide (i < 32)) := by
  have h : (LTDC_LxCFBLR_CFBP : Nat) = (2 ^ 16 - 1) <<< 16 := by
    norm_num [LTDC_LxCFBLR_CFBP, Nat.shiftLeft_eq]
  rw [h, Nat.testBit_shiftLeft, Nat.testBit_two_pow_sub_one]
  rcases Nat.lt_or_ge i 16 with hlt | hge
  · simp [show ¬ (i ≥ 16) by omega, show ¬ (16 ≤ i) by omega]
  · have h3 : (i - 16 < 16) ↔ (i < 32) := by omega
    simp [show i ≥ 16 by omega, show 16 ≤ i by omega, h3]

/-- A pitch below 2^16 shifted into the high halfword is untouched by the
pitch-field mask. -/
lemma shiftLeft16_absorb (p : Nat) (hp : p < 2 ^ 16) :
    (p <<< 16) &&& LTDC_LxCFBLR_CFBP = p <<< 16 := by
  apply Nat.eq_of_testBit_eq
  intro i
  rw [Nat.testBit_and, Nat.testBit_shiftLeft, testBit_hi16_mask]
  rcases Nat.lt_or_ge i 16 with hlt | hge
  · simp [show ¬ (i ≥ 16) by omega, show ¬ (16 ≤ i) by omega]
  · rcases Nat.lt_or_ge i 32 with h32 | h32
    · simp [show i ≥ 16 by omega, show 16 ≤ i by omega, h32]
    · have hb : p.testBit (i - 16) = false := by
        apply Nat.testBit_lt_two_pow
        calc p < 2 ^ 16 := hp
          _ ≤ 2 ^ (i - 16) := Nat.pow_le_pow_right (by norm_num) (by omega)
      simp [hb]

/-- A value below 2^13 is untouched by the line-length field mask. -/
lemma low13_absorb (v : Nat) (hv : v < 2 ^ 13) :
    v &&& LTDC_LxCFBLR_CFBLL = v := by
  have h : (LTDC_LxCFBLR_CFBLL : Nat) = 2 ^ 13 - 1 := by
    norm_num [LTDC_LxCFBLR_CFBLL]
  rw [h, Nat.and_pow_two_sub_one_eq_mod, Nat.mod_eq_of_lt hv]

/-- The packed framebuffer-length register equals pitch in the high halfword
plus the stored length in the low bits. -/
lemma cfblr_pack (p v : Nat) (hp : p < 2 ^ 16) (hv : v < 2 ^ 13) :
    ((p <<< 16) &&& LTDC_LxCFBLR_CFBP) ||| (v &&& LTDC_LxCFBLR_CFBLL) =
      2 ^ 16 * p + v := by
  rw [shiftLeft16_absorb p hp, low13_absorb v hv, Nat.shiftLeft_eq,
      Nat.mul_comm p (2 ^ 16)]
  exact (Nat.mul_add_lt_is_or (lt_of_lt_of_le hv (by norm_num)) p).symm

/-- Extracting the line-length field is reduction modulo 2^13. -/
lemma and_low13_eq_mod (x : Nat) : x &&& LTDC_LxCFBLR_CFBLL = x % 2 ^ 13 := by
  have h : (LTDC_LxCFBLR_CFBLL : Nat) = 2 ^ 13 - 1 := by
    norm_num [LTDC_LxCFBLR_CFBLL]
  rw [h, Nat.and_pow_two_sub_one_eq_mod]

/-- Extracting the pitch field is the second halfword of the register. -/
lemma hi16_field (x : Nat) :
    (x &&& LTDC_LxCFBLR_CFBP) >>> 16 = x / 2 ^ 16 % 2 ^ 16 := by
  apply Nat.eq_of_testBit_eq
  intro i
  rw [Nat.testBit_shiftRight, Nat.testBit_and, testBit_hi16_mask,
      ← Nat.shiftRight_eq_div_pow, Nat.testBit_mod_two_pow,
      Nat.testBit_shiftRight]
  rcases Nat.lt_or_ge i 16 with hlt | hge
  · simp [show 16 ≤ 16 + i by omega, show 16 + i < 32 by omega, hlt,
          Bool.and_comm]
  · simp [show ¬ (16 + i < 32) by omega, show ¬ (i < 16) by omega]

/-- A 32-bit value is untouched by the framebuffer-address mask. -/
lemma mask32_absorb (x : Nat) (hx : x < 2 ^ 32) :
    x &&& LTDC_LxCFBAR_CFBADD = x := by
  have h : (LTDC_LxCFBAR_CFBADD : Nat) = 2 ^ 32 - 1 := by
    norm_num [LTDC_LxCFBAR_CFBADD]
  rw [h, Nat.and_pow_two_sub_one_eq_mod, Nat.mod_eq_of_lt hx]

/-- An 11-bit value is untouched by the line-count field mask. -/
lemma mask11_absorb (x : Nat) (hx : x < 2 ^ 11) :
    x &&& LTDC_LxCFBLNR_CFBLNBR = x := by
  have h : (LTDC_LxCFBLNR_CFBLNBR : Nat) = 2 ^ 11 - 1 := by
    norm_num [LTDC_LxCFBLNR_CFBLNBR]
  rw [h, Nat.and_pow_two_sub_one_eq_mod, Nat.mod_eq_of_lt hx]

/-- Writing the pixel-format field and reading it back returns the format. -/
lemma pfcr_roundtrip (a fmt : Nat) (hf : fmt ≤ 7) :
    ((a &&& (0xFFFFFFFF ^^^ LTDC_LxPFCR_PF)) ||| (fmt &&& LTDC_LxPFCR_PF))
        &&& LTDC_LxPFCR_PF = fmt := by
  rw [Nat.and_distrib_right, Nat.and_assoc, Nat.and_assoc]
  have h1 : ((0xFFFFFFFF ^^^ LTDC_LxPFCR_PF : Nat) &&& LTDC_LxPFCR_PF) = 0 := by
    decide
  have h2 : ((LTDC_LxPFCR_PF : Nat) &&& LTDC_LxPFCR_PF) = LTDC_LxPFCR_PF := by
    decide
  rw [h1, h2, Nat.and_zero]
  have h3 : fmt &&& LTDC_LxPFCR_PF = fmt := by
    have h : (LTDC_LxPFCR_PF : Nat) = 2 ^ 3 - 1 := by norm_num [LTDC_LxPFCR_PF]
    rw [h, Nat.and_pow_two_sub_one_eq_mod, Nat.mod_eq_of_lt (by omega)]
  rw [h3, Nat.zero_or]

/-- Bytes per pixel is positive for every in-range format. -/
lemma ltdcBytesPerPixel_pos (fmt : Nat) (hf : fmt ≤ LTDC_MAX_PIXFMT_ID) :
    0 < ltdcBytesPerPixel fmt := by
  have h : ∀ m, m < 8 → 0 < ltdcBytesPerPixel m := by decide
  exact h fmt (by simp only [LTDC_MAX_PIXFMT_ID] at hf; omega)

/-- The frame setter under its own validation bounds: the exact registers
written (stm32_ltdc.c lines 2253-2284). -/
lemma ltdcBgSetFrameI_eq (cfg : LTDCConfig) (l : LtdcLayerRegs)
    (f : ltdc_frame_t)
    (hfmt : f.fmt ≤ LTDC_MAX_PIXFMT_ID)
    (hw : f.width ≤ cfg.screen_width)
    (hh : f.height ≤ cfg.screen_height)
    (hl1 : LTDC_MIN_FRAME_WIDTH_BYTES ≤ ltdcBytesPerPixel f.fmt * f.width)
    (hl2 : ltdcBytesPerPixel f.fmt * f.width ≤ LTDC_MAX_FRAME_WIDTH_BYTES)
    (hh1 : LTDC_MIN_FRAME_HEIGHT_LINES ≤ f.height)
    (hh2 : f.height ≤ LTDC_MAX_FRAME_HEIGHT_LINES)
    (hp : ltdcBytesPerPixel f.fmt * f.width ≤ f.pitch) :
    ltdcBgSetFrameI cfg l f =
      some { CR := l.CR,
             PFCR := (l.PFCR &&& (0xFFFFFFFF ^^^ LTDC_LxPFCR_PF)) |||
                     (f.fmt &&& LTDC_LxPFCR_PF),
             CFBAR := f.bufferp &&& LTDC_LxCFBAR_CFBADD,
             CFBLR := ((f.pitch <<< 16) &&& LTDC_LxCFBLR_CFBP) |||
                      ((ltdcBytesPerPixel f.fmt * f.width + 3) &&&
                        LTDC_LxCFBLR_CFBLL),
             CFBLNR := f.height &&& LTDC_LxCFBLNR_CFBLNBR,
             WHPCR := l.WHPCR, WVPCR := l.WVPCR } := by
  have hmin : LTDC_MIN_PIXFMT_ID ≤ f.fmt := Nat.zero_le _
  unfold ltdcBgSetFrameI ltdcBgSetPixelFormatI
  rw [if_pos ⟨hmin, hfmt⟩]
  simp only []
  rw [if_pos ⟨hw, hh, hl1, hl2, hh1, hh2, hp⟩]

end LtdcSpec

namespace LtdcSpec

/-- C2 counterexample: set-frame with format RGB-565 followed by get-frame
into a descriptor whose fmt field holds ARGB-8888 returns ARGB-8888, because
`ltdcBgGetFrameI` never assigns the fmt field; the claimed bit-for-bit
equality of the format fields fails. -/
theorem ltdcBgGetFrameI_fmt_stale :
    (ltdcBgSetFrameI cfg480 layerReset
        { bufferp := 0xD0000000, pitch := 960, width := 480, height := 272,
          fmt := LTDC_FMT_RGB565 }).map
      (fun l => (ltdcBgGetFrameI l
        { bufferp := 0, pitch := 0, width := 0, height := 0,
          fmt := LTDC_FMT_ARGB8888 }).fmt) = some LTDC_FMT_ARGB8888 ∧
    LTDC_FMT_ARGB8888 ≠ LTDC_FMT_RGB565 := by
  decide

/-- C2 (amended): for any frame descriptor within the hardware bounds
(geometry within the validated min/max bounds, pitch at least the line size
and fitting its 16-bit field, address fitting 32 bits), set-frame followed by
get-frame returns the address, pitch, width and height bit-for-bit — pitch
and width inverted through the pitch/length register encoding (the setter
packs linesize+3, the getter recovers N) — while the fmt field of the
returned descriptor is left exactly as the caller's struct held it; the
format itself reads back through the pixel-format getter. -/
theorem ltdcBgSetFrame_getFrame_roundtrip (cfg : LTDCConfig)
    (l : LtdcLayerRegs) (f d : ltdc_frame_t)
    (hfmt : f.fmt ≤ LTDC_MAX_PIXFMT_ID)
    (hw : f.width ≤ cfg.screen_width)
    (hh : f.height ≤ cfg.screen_height)
    (hl1 : LTDC_MIN_FRAME_WIDTH_BYTES ≤ ltdcBytesPerPixel f.fmt * f.width)
    (hl2 : ltdcBytesPerPixel f.fmt * f.width ≤ LTDC_MAX_FRAME_WIDTH_BYTES)
    (hh1 : LTDC_MIN_FRAME_HEIGHT_LINES ≤ f.height)
    (hh2 : f.height ≤ LTDC_MAX_FRAME_HEIGHT_LINES)
    (hp : ltdcBytesPerPixel f.fmt * f.width ≤ f.pitch)
    (hp16 : f.pitch < 2 ^ 16) (ha : f.bufferp < 2 ^ 32) :
    ∃ l2, ltdcBgSetFrameI cfg l f = some l2 ∧
      ltdcBgGetFrameI l2 d =
        { bufferp := f.bufferp, pitch := f.pitch, width := f.width,
          height := f.height, fmt := d.fmt } ∧
      ltdcBgGetPixelFormatI l2 = f.fmt := by
  have hfmt7 : f.fmt ≤ 7 := by simpa [LTDC_MAX_PIXFMT_ID] using hfmt
  have hl2n : ltdcBytesPerPixel f.fmt * f.width ≤ 8188 := by
    simpa [LTDC_MAX_FRAME_WIDTH_BYTES] using hl2
  have hv13 : ltdcBytesPerPixel f.fmt * f.width + 3 < 2 ^ 13 := by
    have h2 : (2 : Nat) ^ 13 = 8192 := by norm_num
    omega
  have hh11 : f.height < 2 ^ 11 := by
    have := hh2
    simp only [LTDC_MAX_FRAME_HEIGHT_LINES] at this
    have h2 : (2 : Nat) ^ 11 = 2048 := by norm_num
    omega
  have hgp : (((l.PFCR &&& (0xFFFFFFFF ^^^ LTDC_LxPFCR_PF)) |||
      (f.fmt &&& LTDC_LxPFCR_PF)) &&& LTDC_LxPFCR_PF) = f.fmt :=
    pfcr_roundtrip l.PFCR f.fmt hfmt7
  have hcf : ((f.pitch <<< 16) &&& LTDC_LxCFBLR_CFBP) |||
      ((ltdcBytesPerPixel f.fmt * f.width + 3) &&& LTDC_LxCFBLR_CFBLL) =
      2 ^ 16 * f.pitch + (ltdcBytesPerPixel f.fmt * f.width + 3) :=
    cfblr_pack f.pitch _ hp16 hv13
  have hA : f.bufferp &&& LTDC_LxCFBAR_CFBADD = f.bufferp :=
    mask32_absorb _ ha
  have hH : f.height &&& LTDC_LxCFBLNR_CFBLNBR = f.height :=
    mask11_absorb _ hh11
  refine ⟨_, ltdcBgSetFrameI_eq cfg l f hfmt hw hh hl1 hl2 hh1 hh2 hp,
          ?_, ?_⟩
  · simp only [ltdcBgGetFrameI, ltdcBgGetPixelFormatI]
    rw [hcf, hgp, hA, hA, hH, hH]
    have hpitch : ((2 ^ 16 * f.pitch +
        (ltdcBytesPerPixel f.fmt * f.width + 3)) &&& LTDC_LxCFBLR_CFBP) >>> 16 =
        f.pitch := by
      rw [hi16_field]
      have h1 : (2 : Nat) ^ 16 = 65536 := by norm_num
      have h2 : (2 : Nat) ^ 13 = 8192 := by norm_num
      rw [h1]
      rw [h1] at hp16
      rw [h2] at hv13
      omega
    have hwidth : (((2 ^ 16 * f.pitch +
        (ltdcBytesPerPixel f.fmt * f.width + 3)) &&& LTDC_LxCFBLR_CFBLL) - 3) /
        ltdcBytesPerPixel f.fmt = f.width := by
      rw [and_low13_eq_mod]
      have hmod : (2 ^ 16 * f.pitch +
          (ltdcBytesPerPixel f.fmt * f.width + 3)) % 2 ^ 13 =
          ltdcBytesPerPixel f.fmt * f.width + 3 := by
        have h1 : (2 : Nat) ^ 16 = 65536 := by norm_num
        have h2 : (2 : Nat) ^ 13 = 8192 := by norm_num
        rw [h1, h2]
        rw [h2] at hv13
        omega
      rw [hmod, Nat.add_sub_cancel,
          Nat.mul_div_cancel_left f.width (ltdcBytesPerPixel_pos f.fmt hfmt)]
    rw [hpitch, hwidth]
  · simp only [ltdcBgGetPixelFormatI]
    exact hgp

/-- Witness for C2 at a concrete valid descriptor: RGB-565 480x272 frame at
address 0xD0000000 with pitch 960. -/
theorem ltdcBgSetFrame_getFrame_roundtrip_witness :
    ((2 : Nat) ≤ LTDC_MAX_PIXFMT_ID ∧ (480 : Nat) ≤ cfg480.screen_width ∧
     (272 : Nat) ≤ cfg480.screen_height ∧
     LTDC_MIN_FRAME_WIDTH_BYTES ≤ ltdcBytesPerPixel 2 * 480 ∧
     ltdcBytesPerPixel 2 * 480 ≤ LTDC_MAX_FRAME_WIDTH_BYTES ∧
     LTDC_MIN_FRAME_HEIGHT_LINES ≤ (272 : Nat) ∧
     (272 : Nat) ≤ LTDC_MAX_FRAME_HEIGHT_LINES ∧
     ltdcBytesPerPixel 2 * 480 ≤ 960 ∧ (960 : Nat) < 2 ^ 16 ∧
     (0xD0000000 : Nat) < 2 ^ 32) ∧
    ∃ l2, ltdcBgSetFrameI cfg480 layerReset
        { bufferp := 0xD0000000, pitch := 960, width := 480, height := 272,
          fmt := 2 } = some l2 ∧
      ltdcBgGetFrameI l2
          { bufferp := 0, pitch := 0, width := 0, height := 0, fmt := 7 } =
        { bufferp := 0xD0000000, pitch := 960, width := 480, height := 272,
          fmt := 7 } ∧
      ltdcBgGetPixelFormatI l2 = 2 :=
  ⟨by decide,
   ltdcBgSetFrame_getFrame_roundtrip cfg480 layerReset
     { bufferp := 0xD0000000, pitch := 960, width := 480, height := 272,
       fmt := 2 }
     { bufferp := 0, pitch := 0, width := 0, height := 0, fmt := 7 }
     (by decide) (by decide) (by decide) (by decide) (by decide) (by decide)
     (by decide) (by decide) (by decide) (by decide)⟩

end LtdcSpec

namespace LtdcSpec

/-- C6: the frame setters compute linesize = bytes-per-pixel(fmt) x width and
validate width/height against the screen, linesize and height against the
hardware bounds and pitch against linesize before writing the registers: the
spec scenario set-frame(fg, width=500, height=100, pitch=1000, RGB-565) on
the 480x272 configuration fails (and it is the width check that is violated),
while any descriptor satisfying all the listed bounds passes every assertion
on both layers. -/
theorem ltdcSetFrameI_validation :
    (ltdcFgSetFrameI cfg480 layerReset
        { bufferp := 0, pitch := 1000, width := 500, height := 100,
          fmt := LTDC_FMT_RGB565 } = none ∧
     ¬ (500 : Nat) ≤ cfg480.screen_width ∧
     ltdcBytesPerPixel LTDC_FMT_RGB565 * 500 = 1000) ∧
    ∀ cfg l f, f.fmt ≤ LTDC_MAX_PIXFMT_ID →
      f.width ≤ cfg.screen_width → f.height ≤ cfg.screen_height →
      LTDC_MIN_FRAME_WIDTH_BYTES ≤ ltdcBytesPerPixel f.fmt * f.width →
      ltdcBytesPerPixel f.fmt * f.width ≤ LTDC_MAX_FRAME_WIDTH_BYTES →
      LTDC_MIN_FRAME_HEIGHT_LINES ≤ f.height →
      f.height ≤ LTDC_MAX_FRAME_HEIGHT_LINES →
      ltdcBytesPerPixel f.fmt * f.width ≤ f.pitch →
      (ltdcBgSetFrameI cfg l f).isSome ∧ (ltdcFgSetFrameI cfg l f).isSome := by
  refine ⟨by decide, ?_⟩
  intro cfg l f h1 h2 h3 h4 h5 h6 h7 h8
  have hbg := ltdcBgSetFrameI_eq cfg l f h1 h2 h3 h4 h5 h6 h7 h8
  refine ⟨by rw [hbg]; rfl, ?_⟩
  have hfg : ltdcFgSetFrameI cfg l f = ltdcBgSetFrameI cfg l f := rfl
  rw [hfg, hbg]; rfl

/-- Witness for C6's universal part at a concrete in-bounds descriptor. -/
theorem ltdcSetFrameI_validation_witness :
    ((2 : Nat) ≤ LTDC_MAX_PIXFMT_ID ∧ (480 : Nat) ≤ cfg480.screen_width ∧
     (272 : Nat) ≤ cfg480.screen_height ∧
     LTDC_MIN_FRAME_WIDTH_BYTES ≤ ltdcBytesPerPixel 2 * 480 ∧
     ltdcBytesPerPixel 2 * 480 ≤ LTDC_MAX_FRAME_WIDTH_BYTES ∧
     LTDC_MIN_FRAME_HEIGHT_LINES ≤ (272 : Nat) ∧
     (272 : Nat) ≤ LTDC_MAX_FRAME_HEIGHT_LINES ∧
     ltdcBytesPerPixel 2 * 480 ≤ 960) ∧
    ((ltdcBgSetFrameI cfg480 layerReset
        { bufferp := 0, pitch := 960, width := 480, height := 272,
          fmt := 2 }).isSome ∧
     (ltdcFgSetFrameI cfg480 layerReset
        { bufferp := 0, pitch := 960, width := 480, height := 272,
          fmt := 2 }).isSome) :=
  ⟨by decide,
   ltdcSetFrameI_validation.2 cfg480 layerReset
     { bufferp := 0, pitch := 960, width := 480, height := 272, fmt := 2 }
     (by decide) (by decide) (by decide) (by decide) (by decide) (by decide)
     (by decide) (by decide)⟩

/-- Control-register bit masked out by a wide predicate: membership of any
other bit makes the predicate true. -/
lemma wide_mask_iff (cr k : Nat) (hk : k < 32) (hcr : cr < 2 ^ 32) :
    (cr &&& (0xFFFFFFFF ^^^ 2 ^ k) ≠ 0) ↔
      ∃ i, i < 32 ∧ i ≠ k ∧ cr.testBit i = true := by
  have hmaskbit : ∀ i, (0xFFFFFFFF ^^^ 2 ^ k : Nat).testBit i =
      (decide (i < 32) ^^ decide (k = i)) := by
    intro i
    have h : (0xFFFFFFFF : Nat) = 2 ^ 32 - 1 := by norm_num
    rw [Nat.testBit_xor, h, Nat.testBit_two_pow_sub_one, Nat.testBit_two_pow]
  constructor
  · intro hne
    obtain ⟨i, hi⟩ := Nat.ne_zero_implies_bit_true hne
    rw [Nat.testBit_and, Bool.and_eq_true, hmaskbit] at hi
    obtain ⟨hcr_i, hmask_i⟩ := hi
    have hi32 : i < 32 := by
      by_contra h32
      have hfalse : cr.testBit i = false := by
        apply Nat.testBit_lt_two_pow
        calc cr < 2 ^ 32 := hcr
          _ ≤ 2 ^ i := Nat.pow_le_pow_right (by norm_num) (by omega)
      rw [hfalse] at hcr_i
      exact Bool.false_ne_true hcr_i
    refine ⟨i, hi32, ?_, hcr_i⟩
    intro hik
    rw [hik] at hmask_i
    simp [hi32] at hmask_i
    omega
  · rintro ⟨i, hi32, hik, hbit⟩ h0
    have hbt : (cr &&& (0xFFFFFFFF ^^^ 2 ^ k)).testBit i = true := by
      rw [Nat.testBit_and, hbit, hmaskbit]
      simp [hi32, show k ≠ i from fun h => hik h.symm]
    rw [h0] at hbt
    simp at hbt

/-- C3: the three layer predicates mask the control register with the
complement of the queried bit, so each returns non-zero exactly when at least
one control-register bit other than the queried one is set (a wide test, not
a single-bit test); the foreground predicates are the same test on the
layer 2 register. -/
theorem ltdc_layer_predicates_wide (cr : Nat) (hcr : cr < 2 ^ 32) :
    (ltdcBgIsEnabledI cr = true ↔
      ∃ i, i < 32 ∧ i ≠ 0 ∧ cr.testBit i = true) ∧
    (ltdcBgIsPaletteEnabledI cr = true ↔
      ∃ i, i < 32 ∧ i ≠ 4 ∧ cr.testBit i = true) ∧
    (ltdcBgIsKeyingEnabledI cr = true ↔
      ∃ i, i < 32 ∧ i ≠ 1 ∧ cr.testBit i = true) ∧
    (ltdcFgIsEnabledI cr = true ↔
      ∃ i, i < 32 ∧ i ≠ 0 ∧ cr.testBit i = true) ∧
    (ltdcFgIsPaletteEnabledI cr = true ↔
      ∃ i, i < 32 ∧ i ≠ 4 ∧ cr.testBit i = true) ∧
    (ltdcFgIsKeyingEnabledI cr = true ↔
      ∃ i, i < 32 ∧ i ≠ 1 ∧ cr.testBit i = true) := by
  have hLEN : (LTDC_LxCR_LEN : Nat) = 2 ^ 0 := by norm_num [LTDC_LxCR_LEN]
  have hCLUT : (LTDC_LxCR_CLUTEN : Nat) = 2 ^ 4 := by
    norm_num [LTDC_LxCR_CLUTEN]
  have hKEY : (LTDC_LxCR_COLKEN : Nat) = 2 ^ 1 := by
    norm_num [LTDC_LxCR_COLKEN]
  have h1 : ltdcBgIsEnabledI cr = true ↔
      ∃ i, i < 32 ∧ i ≠ 0 ∧ cr.testBit i = true := by
    rw [ltdcBgIsEnabledI, decide_eq_true_eq, hLEN]
    exact wide_mask_iff cr 0 (by norm_num) hcr
  have h2 : ltdcBgIsPaletteEnabledI cr = true ↔
      ∃ i, i < 32 ∧ i ≠ 4 ∧ cr.testBit i = true := by
    rw [ltdcBgIsPaletteEnabledI, decide_eq_true_eq, hCLUT]
    exact wide_mask_iff cr 4 (by norm_num) hcr
  have h3 : ltdcBgIsKeyingEnabledI cr = true ↔
      ∃ i, i < 32 ∧ i ≠ 1 ∧ cr.testBit i = true := by
    rw [ltdcBgIsKeyingEnabledI, decide_eq_true_eq, hKEY]
    exact wide_mask_iff cr 1 (by norm_num) hcr
  exact ⟨h1, h2, h3, h1, h2, h3⟩

/-- Witness for C3 at cr = 0x10 (only the CLUT-enable bit set): the
layer-enable predicate already reports true. -/
theorem ltdc_layer_predicates_wide_witness :
    (0x10 : Nat) < 2 ^ 32 ∧
    ((ltdcBgIsEnabledI 0x10 = true ↔
       ∃ i, i < 32 ∧ i ≠ 0 ∧ (0x10 : Nat).testBit i = true) ∧
     (ltdcBgIsPaletteEnabledI 0x10 = true ↔
       ∃ i, i < 32 ∧ i ≠ 4 ∧ (0x10 : Nat).testBit i = true) ∧
     (ltdcBgIsKeyingEnabledI 0x10 = true ↔
       ∃ i, i < 32 ∧ i ≠ 1 ∧ (0x10 : Nat).testBit i = true) ∧
     (ltdcFgIsEnabledI 0x10 = true ↔
       ∃ i, i < 32 ∧ i ≠ 0 ∧ (0x10 : Nat).testBit i = true) ∧
     (ltdcFgIsPaletteEnabledI 0x10 = true ↔
       ∃ i, i < 32 ∧ i ≠ 4 ∧ (0x10 : Nat).testBit i = true) ∧
     (ltdcFgIsKeyingEnabledI 0x10 = true ↔
       ∃ i, i < 32 ∧ i ≠ 1 ∧ (0x10 : Nat).testBit i = true)) :=
  ⟨by norm_num, ltdc_layer_predicates_wide 0x10 (by norm_num)⟩

end LtdcSpec

namespace LtdcSpec

/-- C4: palette writes encode each entry as index-in-high-byte plus RGB-888
in the low 24 bits (the true part of the claim), but the "must be disabled"
precondition is implemented through the wide `ltdcBgIsEnabledI` test: with
the control register holding exactly the layer-enable bit the layer is
enabled yet the assertion passes and the palette is written, and with the
layer disabled but the CLUT-enable bit set the call is rejected —
contradicting the claimed enabled-fails/disabled-passes behavior. -/
theorem ltdcBgSetPaletteI_guard_and_words :
    (Nat.testBit LTDC_LxCR_LEN 0 = true ∧
     ltdcBgIsEnabledI LTDC_LxCR_LEN = false ∧
     (ltdcBgSetPaletteI LTDC_LxCR_LEN (List.range 16)).isSome = true) ∧
    (Nat.testBit LTDC_LxCR_CLUTEN 0 = false ∧
     ltdcBgSetPaletteI LTDC_LxCR_CLUTEN (List.range 16) = none) ∧
    ∀ cr colors, colors.length ≤ LTDC_MAX_PALETTE_LENGTH →
      ltdcBgIsEnabledI cr = false →
      ltdcBgSetPaletteI cr colors =
        some ((List.range colors.length).map
          (fun i => (i <<< 24) ||| (colors.getD i 0 &&& 0x00FFFFFF))) := by
  refine ⟨by decide, by decide, ?_⟩
  intro cr colors hlen hdis
  simp [ltdcBgSetPaletteI, hlen, hdis]

/-- Witness for C4's universal part: a two-color palette on a layer whose
control register is zero. -/
theorem ltdcBgSetPaletteI_guard_and_words_witness :
    ((2 : Nat) ≤ LTDC_MAX_PALETTE_LENGTH ∧ ltdcBgIsEnabledI 0 = false) ∧
    ltdcBgSetPaletteI 0 [0x112233, 0xFFAABB] =
      some ((List.range 2).map
        (fun i => (i <<< 24) |||
          ([0x112233, 0xFFAABB].getD i 0 &&& 0x00FFFFFF))) :=
  ⟨by decide,
   ltdcBgSetPaletteI_guard_and_words.2.2 0 [0x112233, 0xFFAABB]
     (by decide) (by decide)⟩

end LtdcSpec

namespace LtdcSpec

/-- C5 counterexample: in the reload branch of the event handler, with the
driver ACTIVE, a reload callback configured and a task parked, the trace
produced is callback, wake, state-to-READY, flag-clear: the wake of the
parked task occurs at index 1, before the READY transition at index 2, so
the claimed order (callback, then READY, then wake) is false. -/
theorem LTDC_EV_IRQHandler_wake_before_ready :
    LTDC_EV_IRQHandler
        { isr := 0x08, ier := 0x08, state := ltdc_state_t.ACTIVE,
          thread := true, line_isr := false, rr_isr := true } =
      some ([LtdcEvent.rrCb, LtdcEvent.wake RDY_OK, LtdcEvent.stateReady,
             LtdcEvent.rrClear],
            { isr := 0x08, ier := 0x08, state := ltdc_state_t.READY,
              thread := false, line_isr := false, rr_isr := true }) ∧
    [LtdcEvent.rrCb, LtdcEvent.wake RDY_OK, LtdcEvent.stateReady,
     LtdcEvent.rrClear].indexOf (LtdcEvent.wake RDY_OK) <
      [LtdcEvent.rrCb, LtdcEvent.wake RDY_OK, LtdcEvent.stateReady,
       LtdcEvent.rrClear].indexOf LtdcEvent.stateReady := by
  decide

/-- C5 (amended): in the reload branch with the driver ACTIVE, the reload
callback (if non-null) is invoked first, then the parked waiting task (if
any) is woken with the success message RDY_OK, then the driver state
transitions to READY, and finally the reload flag is cleared — wake and
state transition both inside the same critical section, with the wake
preceding the state write in program order. -/
theorem LTDC_EV_IRQHandler_reload_order (s : LtdcIsrState)
    (hactive : s.state = ltdc_state_t.ACTIVE)
    (hrr1 : s.isr &&& LTDC_ISR_RRIF ≠ 0)
    (hrr2 : s.ier &&& LTDC_IER_RRIE ≠ 0)
    (hline : s.isr &&& LTDC_ISR_LIF = 0) :
    LTDC_EV_IRQHandler s =
      some ((if s.rr_isr then [LtdcEvent.rrCb] else []) ++
            ((if s.thread then [LtdcEvent.wake RDY_OK] else []) ++
             [LtdcEvent.stateReady, LtdcEvent.rrClear]),
            { s with state := ltdc_state_t.READY, thread := false }) := by
  have hlineneg : ¬ (s.isr &&& LTDC_ISR_LIF ≠ 0 ∧
      s.ier &&& LTDC_IER_LIE ≠ 0) := by
    simp [hline]
  simp only [LTDC_EV_IRQHandler, if_neg hlineneg]
  rw [if_pos ⟨hrr1, hrr2⟩, hactive, if_pos rfl]
  simp [List.append_assoc]

/-- Witness for C5's amended order at the counterexample state. -/
theorem LTDC_EV_IRQHandler_reload_order_witness :
    (({ isr := 0x08, ier := 0x08, state := ltdc_state_t.ACTIVE,
        thread := true, line_isr := false,
        rr_isr := true } : LtdcIsrState).state = ltdc_state_t.ACTIVE ∧
     (0x08 : Nat) &&& LTDC_ISR_RRIF ≠ 0 ∧ (0x08 : Nat) &&& LTDC_IER_RRIE ≠ 0 ∧
     (0x08 : Nat) &&& LTDC_ISR_LIF = 0) ∧
    LTDC_EV_IRQHandler
        { isr := 0x08, ier := 0x08, state := ltdc_state_t.ACTIVE,
          thread := true, line_isr := false, rr_isr := true } =
      some ([LtdcEvent.rrCb] ++
            ([LtdcEvent.wake RDY_OK] ++
             [LtdcEvent.stateReady, LtdcEvent.rrClear]),
            { isr := 0x08, ier := 0x08, state := ltdc_state_t.READY,
              thread := false, line_isr := false, rr_isr := true }) :=
  ⟨⟨by decide, by decide, by decide, by decide⟩,
   LTDC_EV_IRQHandler_reload_order
     { isr := 0x08, ier := 0x08, state := ltdc_state_t.ACTIVE,
       thread := true, line_isr := false, rr_isr := true }
     (by decide) (by decide) (by decide) (by decide)⟩

end LtdcSpec

namespace LtdcSpec

/-- C9: every ILI9341 transfer operation requires driver state == ACTIVE:
write-command, write-byte, write-chunk and read-chunk succeed exactly when
the state is ACTIVE, and in any other state they halt on the assertion
before performing any D/CX or SPI access; read-byte additionally opens with
an assert-FALSE ("should not be used") and therefore never reaches the bus
at all. -/
theorem ili9341_transfer_requires_active (d : ILI9341Driver)
    (cmd v len inb : Nat) (chunk input : List Nat) :
    ((ili9341WriteCommand d cmd).isSome = true ↔
      d.state = ili9341_state_t.ACTIVE) ∧
    ((ili9341WriteByte d v).isSome = true ↔
      d.state = ili9341_state_t.ACTIVE) ∧
    ((ili9341WriteChunk d chunk len).isSome = true ↔
      d.state = ili9341_state_t.ACTIVE) ∧
    ((ili9341ReadChunk d chunk len input).isSome = true ↔
      d.state = ili9341_state_t.ACTIVE) ∧
    ili9341ReadByte d inb = none := by
  by_cases h : d.state = ili9341_state_t.ACTIVE
  · by_cases hz : len = 0 <;>
      simp [ili9341WriteCommand, ili9341WriteByte, ili9341WriteChunk,
            ili9341ReadChunk, ili9341ReadByte, ILI9341_READBYTE_REACHABLE,
            h, hz]
  · simp [ili9341WriteCommand, ili9341WriteByte, ili9341WriteChunk,
          ili9341ReadChunk, ili9341ReadByte, ILI9341_READBYTE_REACHABLE, h]

/-- C10: with the driver ACTIVE, a zero-length write-chunk or read-chunk
returns before any D/CX or SPI access: the effect trace is empty, the driver
object (state and scratch byte) is returned unchanged, and the chunk buffer
is returned unchanged. -/
theorem ili9341_chunk_zero_length_noop (d : ILI9341Driver)
    (chunk input : List Nat) (hact : d.state = ili9341_state_t.ACTIVE) :
    ili9341WriteChunk d chunk 0 = some (d, []) ∧
    ili9341ReadChunk d chunk 0 input = some (d, chunk, []) := by
  simp [ili9341WriteChunk, ili9341ReadChunk, hact]

/-- Witness for C10: an ACTIVE driver with a two-byte buffer. -/
theorem ili9341_chunk_zero_length_noop_witness :
    ({ state := ili9341_state_t.ACTIVE, value := 0 } : ILI9341Driver).state =
      ili9341_state_t.ACTIVE ∧
    (ili9341WriteChunk { state := ili9341_state_t.ACTIVE, value := 0 }
        [0xAA, 0xBB] 0 =
      some ({ state := ili9341_state_t.ACTIVE, value := 0 }, []) ∧
     ili9341ReadChunk { state := ili9341_state_t.ACTIVE, value := 0 }
        [0xAA, 0xBB] 0 [0xCC] =
      some ({ state := ili9341_state_t.ACTIVE, value := 0 }, [0xAA, 0xBB],
            [])) :=
  ⟨by decide,
   ili9341_chunk_zero_length_noop
     { state := ili9341_state_t.ACTIVE, value := 0 } [0xAA, 0xBB] [0xCC]
     (by decide)⟩

end LtdcSpec
